import Mathlib

/-!
Shallow embedding of the USSD session reconciliation and lifecycle state
machine from `temba/ussd/models.py` (class `USSDQuerySet` and proxy model
`USSDSession`).

The session store (a Django table) is modelled as a list of session records
kept in primary-key order; queryset `filter`/`first`/`get` become list
operations.  External collaborators (identity resolution, trigger lookup,
the flow engine and the message sink) are abstracted: events arrive with the
subscriber already resolved, trigger lookup is a function supplied in an
environment, and dispatch is recorded as an explicit trace of dispatch
records instead of being executed.
-/

namespace USSD

/-- Modelled from the spec: the session status constants live on
`ChannelSession` (`temba/channels/models.py`), which is not part of the
sources; the spec (§3, §4.2) lists `TRIGGERED, IN_PROGRESS, INTERRUPTED,
ENDING, COMPLETED`, and the source additionally references the
`INITIATED` constant in `get_initiated_push_session`. -/
inductive Status where
  | INITIATED
  | TRIGGERED
  | IN_PROGRESS
  | ENDING
  | COMPLETED
  | INTERRUPTED
deriving DecidableEq, Repr

/-- Modelled from the spec: `ChannelSession.DONE`, the terminal status set,
is not in the sources; the spec (§3) defines the terminal set as
{`COMPLETED`, `INTERRUPTED`}. -/
def DONE : List Status := [Status.COMPLETED, Status.INTERRUPTED]

/-- `USSD_PULL = INCOMING = 'I'`, `USSD_PUSH = OUTGOING = 'O'`. -/
inductive Direction where
  | USSD_PULL
  | USSD_PUSH
deriving DecidableEq, Repr

/-- A channel session's `session_type`: `USSD`, or any other type sharing
the `ChannelSession` table (the proxy model stores all types together). -/
inductive SessionType where
  | USSD
  | other
deriving DecidableEq, Repr

/-- The slice of a channel the reconciler reads: its creator (used by
`USSDQuerySet.create`) and its org (used for the `org` default). -/
structure Channel where
  createdBy : Nat
  org : Nat
deriving DecidableEq, Repr

/-- A session row of the `ChannelSession` table, restricted to the fields
`temba/ussd/models.py` reads or writes. -/
structure Session where
  id : Nat
  externalId : Option String := none
  channel : Option Channel := none
  contact : Nat
  contactUrn : Option String := none
  org : Nat
  direction : Option Direction := none
  status : Status
  startedOn : Option Nat := none
  endedOn : Option Nat := none
  sessionType : SessionType
  createdBy : Nat
  modifiedBy : Nat
deriving DecidableEq, Repr

/-- Field names passed to `save(update_fields=[...])`. -/
inductive Field where
  | status
  | ended_on
deriving DecidableEq, Repr

/-- `USSDSession.mark_ending`: if the status is not `ENDING`, set it to
`ENDING` and save only the status field; otherwise do nothing.  Returns the
session together with the list of saves performed (each save carries its
`update_fields`). -/
def mark_ending (s : Session) : Session × List (List Field) :=
  if s.status ≠ Status.ENDING then
    ({ s with status := Status.ENDING }, [[Field.status]])
  else
    (s, [])

/-- `USSDSession.close`: `ENDING` becomes `COMPLETED`, anything else becomes
`INTERRUPTED`; `ended_on` is set to the current time and both fields are
saved together.  `now` stands for `timezone.now()`. -/
def close (now : Nat) (s : Session) : Session × List (List Field) :=
  let s1 :=
    if s.status = Status.ENDING then { s with status := Status.COMPLETED }
    else { s with status := Status.INTERRUPTED }
  ({ s1 with endedOn := some now }, [[Field.status, Field.ended_on]])

/-- The session store, in primary-key order. -/
abbrev Store := List Session

/-- `USSDQuerySet.get_initiated_push_session`: first session with direction
`USSD_PUSH`, status `INITIATED` and the given contact.  (`filter` is not
overridden, so no `session_type` restriction applies here.) -/
def get_initiated_push_session (store : Store) (contact : Nat) : Option Session :=
  store.find? fun s =>
    s.direction == some Direction.USSD_PUSH && s.status == Status.INITIATED
      && s.contact == contact

/-- `USSDQuerySet.get_session_by_external_id`: first session whose status is
not in `DONE` and whose `external_id` matches. -/
def get_session_by_external_id (store : Store) (session_id : String) : Option Session :=
  store.find? fun s =>
    !(decide (s.status ∈ DONE)) && s.externalId == some session_id

/-- The candidate rows of the exclusive-lock lookup in `handle_incoming`:
`select_for_update().exclude(status__in=DONE).get(external_id=external_id)`.
The overridden `USSDQuerySet.get` adds `session_type=USSD` to the kwargs;
`get` then requires exactly one candidate. -/
def locked_get_matches (store : Store) (external_id : String) : List Session :=
  store.filter fun s =>
    !(decide (s.status ∈ DONE)) && s.externalId == some external_id
      && s.sessionType == SessionType.USSD

/-- Modelled from the spec: `get_anonymous_user` (`temba/utils`) is not in
the sources; the spec (§3, §9) calls it a fixed system actor, here the
actor id 0. -/
def anonymous_user : Nat := 0

/-- The actor `USSDQuerySet.create` stamps on new rows: the channel's
creator when a channel is supplied, otherwise the anonymous system user. -/
def qs_create_user (channel : Option Channel) : Nat :=
  match channel with
  | some ch => ch.createdBy
  | none => anonymous_user

/-- A fresh primary key: one more than the largest id in the store. -/
def fresh_id (store : Store) : Nat :=
  (store.map Session.id).foldr max 0 + 1

/-- The `defaults` dict that `handle_incoming` builds and then applies
field by field.  `none` in an `Option`-valued field means the key is
absent from the dict (so `setattr` leaves the session's field alone);
`channel`, `contact`, `contact_urn`, `org` and `status` are always
present. -/
structure Defaults where
  channel : Option Channel
  contact : Nat
  contactUrn : Option String
  org : Nat
  status : Status
  startedOn : Option Nat := none
  direction : Option Direction := none
  endedOn : Option Nat := none
  externalId : Option String := none
deriving DecidableEq, Repr

/-- `setattr` the dict's entries onto an existing session (the resume
paths): present keys overwrite, absent keys leave the field unchanged. -/
def apply_defaults (d : Defaults) (s : Session) : Session :=
  { s with
    channel := d.channel
    contact := d.contact
    contactUrn := d.contactUrn
    org := d.org
    status := d.status
    startedOn := match d.startedOn with | some v => some v | none => s.startedOn
    direction := match d.direction with | some v => some v | none => s.direction
    endedOn := match d.endedOn with | some v => some v | none => s.endedOn
    externalId := match d.externalId with | some v => some v | none => s.externalId }

/-- `USSDQuerySet.create(**defaults)`: a new row from the dict, with
`session_type=USSD` and `created_by`/`modified_by` stamped by the
queryset; fields absent from the dict take the model defaults. -/
def qs_create (store : Store) (d : Defaults) : Session :=
  { id := fresh_id store
    externalId := d.externalId
    channel := d.channel
    contact := d.contact
    contactUrn := d.contactUrn
    org := d.org
    direction := d.direction
    status := d.status
    startedOn := d.startedOn
    endedOn := d.endedOn
    sessionType := SessionType.USSD
    createdBy := qs_create_user d.channel
    modifiedBy := qs_create_user d.channel }

/-- `session.save()`: write the row back into the store by primary key. -/
def store_save (store : Store) (s : Session) : Store :=
  store.map fun t => if t.id = s.id then s else t

/-- A trigger, exposing its flow (the trigger-lookup collaborator's
return type). -/
structure Trigger where
  flow : Nat
deriving DecidableEq, Repr

/-- The external collaborators `handle_incoming`/`handle_interrupt`
consult: `Trigger.find_trigger_for_ussd_session` and `timezone.now()`. -/
structure Env where
  find_trigger_for_ussd_session : Nat → Option String → Option Trigger
  now : Nat

/-- An inbound gateway event, with subscriber identity already resolved
(contact resolution via `Contact.get_or_create` / `ContactURN` is an
external collaborator, spec §6): `contact` and `contactUrn` are the
resolved values, `contactOrg` is `contact.org`. -/
structure Event where
  channel : Option Channel
  urn : String
  date : Nat
  external_id : String
  contact : Nat
  contactUrn : Option String := none
  contactOrg : Nat
  message_id : Option Nat := none
  status : Option Status := none
  content : Option String := none
  starcode : Option String := none

/-- A record of one hand-off to the flow-execution collaborator /
message sink: flow starts (`start_session_async` / `handle_session_sync`
with `start=True`) and resumes (`handle_session_async` /
`handle_session_sync`). -/
inductive Dispatch where
  | start_async (sessionId : Nat) (flow : Nat) (date : Nat) (messageId : Option Nat)
  | start_sync (sessionId : Nat) (flow : Nat) (date : Nat) (messageId : Option Nat)
  | resume_async (sessionId : Nat) (urn : String) (content : Option String)
      (date : Nat) (messageId : Option Nat)
  | resume_sync (sessionId : Nat) (urn : String) (content : Option String)
      (date : Nat) (messageId : Option Nat)
deriving DecidableEq, Repr

/-- Result of `handle_incoming`: the returned `(session, msgs)` pair
(`result` is the synchronous dispatch result, `none` in asynchronous mode
or on the abort paths), the store after the call, and the dispatch trace. -/
structure HIResult where
  session : Option Session
  result : Option Dispatch
  store : Store
  dispatches : List Dispatch
deriving DecidableEq, Repr

/-- The trigger resolved in step 2 of `handle_incoming`: looked up only
under a `TRIGGERED` status hint. -/
def resolved_trigger (env : Env) (e : Event) : Option Trigger :=
  if e.status = some Status.TRIGGERED then
    env.find_trigger_for_ussd_session e.contact e.starcode
  else
    none

/-- The `defaults` dict after the status-hint branch of `handle_incoming`
(the `TRIGGERED` arm is only reached when a trigger was found). -/
def build_defaults (e : Event) : Defaults :=
  let org := match e.channel with | some ch => ch.org | none => e.contactOrg
  match e.status with
  | some Status.TRIGGERED =>
      { channel := e.channel, contact := e.contact, contactUrn := e.contactUrn,
        org := org, status := Status.TRIGGERED,
        startedOn := some e.date, direction := some Direction.USSD_PULL }
  | some Status.INTERRUPTED =>
      { channel := e.channel, contact := e.contact, contactUrn := e.contactUrn,
        org := org, status := Status.INTERRUPTED, endedOn := some e.date }
  | _ =>
      { channel := e.channel, contact := e.contact, contactUrn := e.contactUrn,
        org := org, status := Status.IN_PROGRESS }

/-- The dispatch tail of `handle_incoming`: start a flow when the session
was just created from a trigger, otherwise resume; synchronous mode
returns the collaborator's result, asynchronous mode returns `none`. -/
def finish_dispatch (store : Store) (s : Session) (created : Bool)
    (trigger : Option Trigger) (e : Event) (async : Bool) : HIResult :=
  match created, trigger with
  | true, some tr =>
      if async then
        { session := some s, result := none, store := store,
          dispatches := [Dispatch.start_async s.id tr.flow e.date e.message_id] }
      else
        { session := some s,
          result := some (Dispatch.start_sync s.id tr.flow e.date e.message_id),
          store := store,
          dispatches := [Dispatch.start_sync s.id tr.flow e.date e.message_id] }
  | _, _ =>
      if async then
        { session := some s, result := none, store := store,
          dispatches := [Dispatch.resume_async s.id e.urn e.content e.date e.message_id] }
      else
        { session := some s,
          result := some (Dispatch.resume_sync s.id e.urn e.content e.date e.message_id),
          store := store,
          dispatches := [Dispatch.resume_sync s.id e.urn e.content e.date e.message_id] }

/-- `USSDSession.handle_incoming`.  Returns `none` only for the uncaught
`MultipleObjectsReturned` of the exclusive-lock `get` (only
`DoesNotExist` is handled in the source); otherwise `some` of the
result.  The early aborts return `(None, None)` with the store untouched
and nothing dispatched. -/
def handle_incoming (env : Env) (store : Store) (e : Event) (async : Bool) :
    Option HIResult :=
  let trigger := resolved_trigger env e
  if e.status = some Status.TRIGGERED ∧ trigger = none then
    some { session := none, result := none, store := store, dispatches := [] }
  else
    let defaults := build_defaults e
    match get_initiated_push_session store e.contact with
    | none =>
        match locked_get_matches store e.external_id with
        | [s] =>
            let s' := apply_defaults defaults s
            some (finish_dispatch (store_save store s') s' false trigger e async)
        | [] =>
            if async = false ∧ trigger = none then
              some { session := none, result := none, store := store, dispatches := [] }
            else
              let s := qs_create store { defaults with externalId := some e.external_id }
              some (finish_dispatch (store ++ [s]) s true trigger e async)
        | _ => none
    | some s =>
        let s' := apply_defaults { defaults with externalId := some e.external_id } s
        some (finish_dispatch (store_save store s') s' false trigger e async)

/-- `USSDSession.handle_interrupt`: look up a non-terminal session by
external id; if none, return `None`; otherwise `close` it, dispatch an
empty-content event using `session.contact_urn.urn`, and return the
session.  Returns `none` (at the outer level) for the uncaught
`AttributeError` when the matched session has no contact urn. -/
def handle_interrupt (env : Env) (store : Store) (session_id : String) (async : Bool) :
    Option (Option Session × Store × List Dispatch) :=
  match get_session_by_external_id store session_id with
  | none => some (none, store, [])
  | some s =>
      let s' := (close env.now s).1
      match s'.contactUrn with
      | none => none
      | some u =>
          let d :=
            if async then Dispatch.resume_async s'.id u none env.now none
            else Dispatch.resume_sync s'.id u none env.now none
          some (some s', store_save store s', [d])

/-- Data-model invariant (spec §3): `ended_on` is set exactly when the
status is terminal. -/
def ended_on_iff_terminal (s : Session) : Prop :=
  s.endedOn.isSome ↔ s.status ∈ DONE

instance (s : Session) : Decidable (ended_on_iff_terminal s) := by
  unfold ended_on_iff_terminal
  infer_instance

/-! ### Helper lemmas -/

/-- Every id in the store is below the fresh id. -/
lemma id_lt_fresh_id {store : Store} {s : Session} (h : s ∈ store) :
    s.id < fresh_id store := by
  unfold fresh_id
  have : s.id ≤ (store.map Session.id).foldr max 0 := by
    induction store with
    | nil => cases h
    | cons t ts ih =>
        rcases List.mem_cons.mp h with rfl | hmem
        · exact le_max_of_le_left le_rfl
        · exact le_max_of_le_right (ih hmem)
  omega

/-- Saving a row back by primary key keeps the list of ids unchanged. -/
lemma store_save_map_id (store : Store) (s : Session) :
    (store_save store s).map Session.id = store.map Session.id := by
  unfold store_save
  induction store with
  | nil => rfl
  | cons t ts ih =>
      by_cases h : t.id = s.id <;> simp [h, ih]

/-- Membership after a save: the row is the saved one or an untouched one. -/
lemma mem_store_save {store : Store} {s t : Session} (h : t ∈ store_save store s) :
    t = s ∨ t ∈ store := by
  unfold store_save at h
  rcases List.mem_map.mp h with ⟨u, hu, heq⟩
  by_cases hid : u.id = s.id
  · left; rw [← heq]; simp [hid]
  · right; rw [← heq]; simpa [hid] using hu

/-! ### Example sessions, events and environments for concrete checks -/

/-- An in-progress session used by concrete checks of `close`. -/
def sessInProgress : Session :=
  { id := 1, externalId := some "abc", contact := 7, org := 1,
    status := Status.IN_PROGRESS, sessionType := SessionType.USSD,
    createdBy := 0, modifiedBy := 0 }

/-- An ending session used by concrete checks of `close`. -/
def sessEnding : Session :=
  { id := 2, externalId := some "def", contact := 7, org := 1,
    status := Status.ENDING, sessionType := SessionType.USSD,
    createdBy := 0, modifiedBy := 0 }

/-- A completed session with `ended_on` set, used by concrete checks of
`close` re-invocation. -/
def sessCompleted : Session :=
  { id := 3, externalId := some "ghi", contact := 8, org := 1,
    status := Status.COMPLETED, endedOn := some 5,
    sessionType := SessionType.USSD, createdBy := 0, modifiedBy := 0 }

/-! ### C3: `close` -/

/-- C3: `close` sends `ENDING` to `COMPLETED` and every other status to
`INTERRUPTED`, sets `ended_on` to the current time, and performs exactly
one save covering exactly the status and `ended_on` fields. -/
theorem close_transitions (now : Nat) (s : Session) :
    (s.status = Status.ENDING → (close now s).1.status = Status.COMPLETED) ∧
    (s.status ≠ Status.ENDING → (close now s).1.status = Status.INTERRUPTED) ∧
    (close now s).1.endedOn = some now ∧
    (close now s).2 = [[Field.status, Field.ended_on]] := by
  unfold close
  by_cases h : s.status = Status.ENDING <;> simp [h]

/-- Concrete check of `close_transitions` on an `ENDING` and an
`IN_PROGRESS` session. -/
theorem close_transitions_witness :
    (close 9 sessEnding).1.status = Status.COMPLETED ∧
    (close 9 sessInProgress).1.status = Status.INTERRUPTED := by
  constructor
  · exact (close_transitions 9 sessEnding).1 (by decide)
  · exact (close_transitions 9 sessInProgress).2.1 (by decide)

/-! ### C4: `mark_ending` idempotence -/

/-- C4: `mark_ending` on a session not yet `ENDING` sets the status to
`ENDING` with a single save of only the status field; on a session already
`ENDING` it performs no save; a second call right after a first is always
a no-op, so two calls in a row leave the status at `ENDING` with at most
the first call's single write. -/
theorem mark_ending_idempotent (s : Session) :
    (s.status ≠ Status.ENDING →
        mark_ending s = ({ s with status := Status.ENDING }, [[Field.status]])) ∧
    (s.status = Status.ENDING → mark_ending s = (s, [])) ∧
    (mark_ending s).1.status = Status.ENDING ∧
    mark_ending (mark_ending s).1 = ((mark_ending s).1, []) := by
  unfold mark_ending
  by_cases h : s.status = Status.ENDING <;> simp [h]

/-- Concrete check of `mark_ending_idempotent` on a non-`ENDING` and an
`ENDING` session. -/
theorem mark_ending_idempotent_witness :
    mark_ending sessInProgress =
      ({ sessInProgress with status := Status.ENDING }, [[Field.status]]) ∧
    mark_ending sessEnding = (sessEnding, []) := by
  constructor
  · exact (mark_ending_idempotent sessInProgress).1 (by decide)
  · exact (mark_ending_idempotent sessEnding).2.1 (by decide)

/-! ### C9: `close` is not guarded against terminal sessions -/

/-- C9: `close` on an already-`COMPLETED` session is not a no-op: the
status moves to `INTERRUPTED` and `ended_on` is overwritten with the new
current time, so the session record changes. -/
theorem close_on_completed_mutates (now : Nat) (s : Session)
    (h : s.status = Status.COMPLETED) :
    (close now s).1.status = Status.INTERRUPTED ∧
    (close now s).1.endedOn = some now ∧
    (close now s).1 ≠ s := by
  refine ⟨?_, ?_, ?_⟩
  · simp [close, h]
  · simp [close]
  · intro heq
    have : s.status = Status.INTERRUPTED := by
      conv_lhs => rw [← heq]
      simp [close, h]
    rw [h] at this
    exact Status.noConfusion this

/-- Concrete check of `close_on_completed_mutates` on a completed session
whose `ended_on` was 5: closing at time 9 rewrites it. -/
theorem close_on_completed_mutates_witness :
    (close 9 sessCompleted).1.status = Status.INTERRUPTED ∧
    (close 9 sessCompleted).1.endedOn = some 9 ∧
    (close 9 sessCompleted).1 ≠ sessCompleted := by
  exact close_on_completed_mutates 9 sessCompleted (by decide)

/-! ### C5: `TRIGGERED` hint with no matching trigger -/

/-- An environment whose trigger lookup always fails. -/
def envNoTrigger : Env :=
  { find_trigger_for_ussd_session := fun _ _ => none, now := 10 }

/-- A `TRIGGERED`-hinted event for concrete checks. -/
def eventTriggeredHint : Event :=
  { channel := none, urn := "tel:250788383383", date := 3, external_id := "abc",
    contact := 7, contactUrn := some "tel:250788383383", contactOrg := 1,
    status := some Status.TRIGGERED, starcode := some "123" }

/-- C5: a `TRIGGERED`-hinted event whose trigger lookup fails makes
`handle_incoming` return `(None, None)` with the store untouched and
nothing dispatched, in either dispatch mode. -/
theorem no_matching_trigger_aborts (env : Env) (store : Store) (e : Event) (async : Bool)
    (h1 : e.status = some Status.TRIGGERED)
    (h2 : env.find_trigger_for_ussd_session e.contact e.starcode = none) :
    handle_incoming env store e async =
      some { session := none, result := none, store := store, dispatches := [] } := by
  simp [handle_incoming, resolved_trigger, h1, h2]

/-- Concrete check of `no_matching_trigger_aborts`: empty store,
trigger lookup that returns nothing. -/
theorem no_matching_trigger_aborts_witness :
    handle_incoming envNoTrigger [] eventTriggeredHint true =
      some { session := none, result := none, store := [], dispatches := [] } :=
  no_matching_trigger_aborts envNoTrigger [] eventTriggeredHint true (by decide) rfl

/-! ### C6: synchronous mode, no trigger, no matching session -/

/-- A bare content event (no status hint) for concrete checks. -/
def eventBareContent : Event :=
  { channel := none, urn := "tel:250788383383", date := 3, external_id := "abc",
    contact := 7, contactUrn := some "tel:250788383383", contactOrg := 1,
    status := none, content := some "1" }

/-- C6: in synchronous mode, when no trigger is resolved, the subscriber
has no initiated push session, and no non-terminal session matches the
external id, `handle_incoming` returns `(None, None)` without creating a
session or dispatching. -/
theorem sync_unmatched_no_trigger_aborts (env : Env) (store : Store) (e : Event)
    (h1 : resolved_trigger env e = none)
    (h2 : get_initiated_push_session store e.contact = none)
    (h3 : locked_get_matches store e.external_id = []) :
    handle_incoming env store e false =
      some { session := none, result := none, store := store, dispatches := [] } := by
  by_cases h : e.status = some Status.TRIGGERED <;>
    simp [handle_incoming, h, h1, h2, h3]

/-- Concrete check of `sync_unmatched_no_trigger_aborts`: the spec's
scenario, `event{externalId="abc", status=None, content="1"}` on an empty
store in synchronous mode. -/
theorem sync_unmatched_no_trigger_aborts_witness :
    handle_incoming envNoTrigger [] eventBareContent false =
      some { session := none, result := none, store := [], dispatches := [] } :=
  sync_unmatched_no_trigger_aborts envNoTrigger [] eventBareContent (by decide) rfl rfl

/-! ### C2: terminal sessions are never matched; reused ids create anew -/

/-- C2: the by-external-id lookup and the exclusive-lock candidate set
never return a session whose status is terminal; consequently, when every
session carrying the event's external id is terminal (and no initiated
push session exists), an asynchronous no-hint event creates a brand-new
session (its id unused in the store) instead of reusing the terminal
row. -/
theorem terminal_sessions_never_matched :
    (∀ (store : Store) (eid : String) (s : Session),
        get_session_by_external_id store eid = some s → s.status ∉ DONE) ∧
    (∀ (store : Store) (eid : String) (s : Session),
        s ∈ locked_get_matches store eid → s.status ∉ DONE) ∧
    (∀ (env : Env) (store : Store) (e : Event),
        e.status = none →
        (∀ s ∈ store, s.externalId = some e.external_id → s.status ∈ DONE) →
        get_initiated_push_session store e.contact = none →
        handle_incoming env store e true =
          some { session :=
                   some (qs_create store { build_defaults e with externalId := some e.external_id }),
                 result := none,
                 store :=
                   store ++ [qs_create store { build_defaults e with externalId := some e.external_id }],
                 dispatches := [Dispatch.resume_async (fresh_id store) e.urn e.content
                                  e.date e.message_id] } ∧
        (∀ t ∈ store, t.id ≠ fresh_id store)) := by
  refine ⟨?_, ?_, ?_⟩
  · intro store eid s h
    have hp := List.find?_some h
    simp only [Bool.and_eq_true, Bool.not_eq_true', decide_eq_false_iff_not] at hp
    exact hp.1
  · intro store eid s h
    have hp := (List.mem_filter.mp h).2
    simp only [Bool.and_eq_true, Bool.not_eq_true', decide_eq_false_iff_not] at hp
    exact hp.1.1
  · intro env store e h0 h1 h2
    have htrig : resolved_trigger env e = none := by
      simp [resolved_trigger, h0]
    have hfilter : locked_get_matches store e.external_id = [] := by
      unfold locked_get_matches
      refine List.filter_eq_nil_iff.mpr ?_
      intro s hs
      simp only [Bool.and_eq_true, Bool.not_eq_true', decide_eq_false_iff_not, beq_iff_eq]
      rintro ⟨⟨hnd, heid⟩, -⟩
      exact hnd (h1 s hs heid)
    constructor
    · simp [handle_incoming, h0, htrig, h2, hfilter, finish_dispatch, qs_create]
    · intro t ht
      exact Nat.ne_of_lt (id_lt_fresh_id ht)

/-- A terminal session holding a stale external id "abc". -/
def sessCompletedAbc : Session :=
  { id := 4, externalId := some "abc", contact := 7, org := 1,
    status := Status.COMPLETED, endedOn := some 2,
    sessionType := SessionType.USSD, createdBy := 0, modifiedBy := 0 }

/-- A fresh asynchronous no-hint event reusing the external id "abc". -/
def eventReuseAbc : Event :=
  { channel := none, urn := "tel:250788383383", date := 6, external_id := "abc",
    contact := 7, contactUrn := some "tel:250788383383", contactOrg := 1,
    status := none, content := some "2" }

/-- Concrete check of `terminal_sessions_never_matched`: a store holding
one `COMPLETED` session with external id "abc" and an event reusing
"abc". -/
theorem terminal_sessions_never_matched_witness :
    get_initiated_push_session [sessCompletedAbc] eventReuseAbc.contact = none ∧
    handle_incoming envNoTrigger [sessCompletedAbc] eventReuseAbc true =
      some { session :=
               some (qs_create [sessCompletedAbc]
                 { build_defaults eventReuseAbc with
                     externalId := some eventReuseAbc.external_id }),
             result := none,
             store :=
               [sessCompletedAbc] ++
                 [qs_create [sessCompletedAbc]
                   { build_defaults eventReuseAbc with
                       externalId := some eventReuseAbc.external_id }],
             dispatches := [Dispatch.resume_async (fresh_id [sessCompletedAbc])
                              eventReuseAbc.urn eventReuseAbc.content
                              eventReuseAbc.date eventReuseAbc.message_id] } := by
  refine ⟨by decide, ?_⟩
  exact (terminal_sessions_never_matched.2.2 envNoTrigger [sessCompletedAbc] eventReuseAbc
    (by decide) (by decide) (by decide)).1

/-! ### C1: push-session precedence -/

/-- A `PUSH`-direction session in the non-terminal status `IN_PROGRESS`
(not `INITIATED`). -/
def pushSessionInProgress : Session :=
  { id := 1, externalId := some "p1", contact := 7,
    contactUrn := some "tel:250788383383", org := 1,
    direction := some Direction.USSD_PUSH, status := Status.IN_PROGRESS,
    startedOn := some 0, sessionType := SessionType.USSD,
    createdBy := 0, modifiedBy := 0 }

/-- An unrelated no-hint event for the same subscriber with a different
external id. -/
def eventUnrelatedPull : Event :=
  { channel := none, urn := "tel:250788383383", date := 6, external_id := "x2",
    contact := 7, contactUrn := some "tel:250788383383", contactOrg := 1,
    status := none, content := some "1" }

/-- C1 counterexample: the subscriber holds a `PUSH` session in the
non-terminal status `IN_PROGRESS`, yet an inbound event with a different
external id does not resume it — the push session is left untouched (its
external id stays "p1") and a second session is created for the same
subscriber, because `get_initiated_push_session` only matches status
`INITIATED`. -/
theorem push_nonterminal_not_resumed :
    pushSessionInProgress.direction = some Direction.USSD_PUSH ∧
    pushSessionInProgress.status ∉ DONE ∧
    (handle_incoming envNoTrigger [pushSessionInProgress] eventUnrelatedPull true).map
        (fun r => (r.store.filter fun s => s.contact == 7).length) = some 2 ∧
    (handle_incoming envNoTrigger [pushSessionInProgress] eventUnrelatedPull true).map
        (fun r => r.store.head?.map fun s => (s.externalId, s.status)) =
      some (some (some "p1", Status.IN_PROGRESS)) := by
  decide

/-- C1 amended: when the subscriber has a `PUSH` session in status
`INITIATED` (and the event is not a trigger-hinted event with no
resolvable trigger), `handle_incoming` resumes that push session —
applying the defaults patch and overwriting its external id with the
event's — saves it back in place, and creates no second session:
the store's ids are unchanged. -/
theorem initiated_push_session_resumed (env : Env) (store : Store) (e : Event)
    (async : Bool) (s : Session)
    (hpush : get_initiated_push_session store e.contact = some s)
    (htrig : ¬(e.status = some Status.TRIGGERED ∧ resolved_trigger env e = none)) :
    (handle_incoming env store e async).map HIResult.session =
      some (some (apply_defaults
        { build_defaults e with externalId := some e.external_id } s)) ∧
    (handle_incoming env store e async).map HIResult.store =
      some (store_save store (apply_defaults
        { build_defaults e with externalId := some e.external_id } s)) ∧
    (handle_incoming env store e async).map (fun r => r.store.map Session.id) =
      some (store.map Session.id) ∧
    (apply_defaults { build_defaults e with externalId := some e.external_id } s).externalId =
      some e.external_id := by
  have hrun : handle_incoming env store e async =
      some (finish_dispatch
        (store_save store (apply_defaults
          { build_defaults e with externalId := some e.external_id } s))
        (apply_defaults { build_defaults e with externalId := some e.external_id } s)
        false (resolved_trigger env e) e async) := by
    simp only [handle_incoming, hpush]
    rw [if_neg htrig]
  refine ⟨?_, ?_, ?_, ?_⟩
  · rw [hrun]
    cases hres : resolved_trigger env e <;> cases async <;> simp [finish_dispatch]
  · rw [hrun]
    cases hres : resolved_trigger env e <;> cases async <;> simp [finish_dispatch]
  · rw [hrun]
    cases hres : resolved_trigger env e <;> cases async <;>
      simp [finish_dispatch, store_save_map_id]
  · simp [apply_defaults]

/-- A `PUSH` session in status `INITIATED` for the concrete check. -/
def pushSessionInitiated : Session :=
  { id := 5, externalId := some "p9", contact := 9,
    contactUrn := some "tel:250788999999", org := 1,
    direction := some Direction.USSD_PUSH, status := Status.INITIATED,
    sessionType := SessionType.USSD, createdBy := 0, modifiedBy := 0 }

/-- A no-hint event for the subscriber holding the initiated push
session, carrying a fresh external id. -/
def eventForPushSubscriber : Event :=
  { channel := none, urn := "tel:250788999999", date := 6, external_id := "z1",
    contact := 9, contactUrn := some "tel:250788999999", contactOrg := 1,
    status := none, content := some "ok" }

/-- Concrete check of `initiated_push_session_resumed`: one initiated push
session, an event with a different external id. -/
theorem initiated_push_session_resumed_witness :
    (handle_incoming envNoTrigger [pushSessionInitiated] eventForPushSubscriber true).map
        HIResult.session =
      some (some (apply_defaults
        { build_defaults eventForPushSubscriber with
            externalId := some eventForPushSubscriber.external_id } pushSessionInitiated)) ∧
    (handle_incoming envNoTrigger [pushSessionInitiated] eventForPushSubscriber true).map
        (fun r => r.store.map Session.id) =
      some ([pushSessionInitiated].map Session.id) := by
  have h := initiated_push_session_resumed envNoTrigger [pushSessionInitiated]
    eventForPushSubscriber true pushSessionInitiated (by decide) (by decide)
  exact ⟨h.1, h.2.2.1⟩

/-! ### C7: `handle_interrupt` -/

/-- C7: `handle_interrupt` returns `None` exactly when no non-terminal
session matches the external id; on a match with a resolved subscriber
address it closes the session (setting `ended_on`, and `INTERRUPTED` for
any status other than `ENDING`), saves it, dispatches a single
empty-content event in the requested mode using the session's subscriber
address, and returns the closed session. -/
theorem handle_interrupt_spec :
    (∀ (env : Env) (store : Store) (sid : String) (async : Bool),
        handle_interrupt env store sid async = some (none, store, []) ↔
          get_session_by_external_id store sid = none) ∧
    (∀ (env : Env) (store : Store) (sid : String) (async : Bool) (s : Session) (u : String),
        get_session_by_external_id store sid = some s →
        s.contactUrn = some u →
        handle_interrupt env store sid async =
          some (some ((close env.now s).1),
                store_save store ((close env.now s).1),
                [if async then Dispatch.resume_async s.id u none env.now none
                 else Dispatch.resume_sync s.id u none env.now none]) ∧
        ((close env.now s).1).endedOn = some env.now ∧
        (s.status ≠ Status.ENDING →
          ((close env.now s).1).status = Status.INTERRUPTED)) := by
  constructor
  · intro env store sid async
    constructor
    · intro h
      cases hfind : get_session_by_external_id store sid with
      | none => rfl
      | some s =>
          exfalso
          simp only [handle_interrupt, hfind] at h
          cases hurn : ((close env.now s).1).contactUrn with
          | none => simp [hurn] at h
          | some u => simp [hurn] at h
    · intro h
      simp [handle_interrupt, h]
  · intro env store sid async s u hfind hurn
    have hurn' : ((close env.now s).1).contactUrn = some u := by
      by_cases hs : s.status = Status.ENDING <;> simp [close, hs, hurn]
    have hid : ((close env.now s).1).id = s.id := by
      by_cases hs : s.status = Status.ENDING <;> simp [close, hs]
    refine ⟨?_, ?_, ?_⟩
    · simp only [handle_interrupt, hfind, hurn', hid]
    · simp [close]
    · intro hs
      simp [close, hs]

/-- An in-progress session with external id "w1" targeted by the
interrupt check. -/
def sessInterruptTarget : Session :=
  { id := 6, externalId := some "w1", contact := 11,
    contactUrn := some "tel:250788111111", org := 1,
    direction := some Direction.USSD_PULL, status := Status.IN_PROGRESS,
    sessionType := SessionType.USSD, createdBy := 0, modifiedBy := 0 }

/-- Concrete check of `handle_interrupt_spec` on a store holding one
`IN_PROGRESS` session with external id "w1": the session comes back
`INTERRUPTED` with `ended_on` set. -/
theorem handle_interrupt_spec_witness :
    ((close envNoTrigger.now sessInterruptTarget).1).endedOn = some envNoTrigger.now ∧
    ((close envNoTrigger.now sessInterruptTarget).1).status = Status.INTERRUPTED ∧
    handle_interrupt envNoTrigger [sessInterruptTarget] "w1" true =
      some (some ((close envNoTrigger.now sessInterruptTarget).1),
            store_save [sessInterruptTarget] ((close envNoTrigger.now sessInterruptTarget).1),
            [if true then
                Dispatch.resume_async sessInterruptTarget.id "tel:250788111111" none
                  envNoTrigger.now none
             else
                Dispatch.resume_sync sessInterruptTarget.id "tel:250788111111" none
                  envNoTrigger.now none]) := by
  have h := handle_interrupt_spec.2 envNoTrigger [sessInterruptTarget] "w1" true
    sessInterruptTarget "tel:250788111111" (by decide) rfl
  exact ⟨h.2.1, h.2.2 (by decide), h.1⟩

/-! ### C10: queryset stamping and `session_type` filtering -/

/-- C10: every session created through the queryset carries
`session_type = USSD` and `created_by`/`modified_by` both stamped — with
the channel's creator when a channel is supplied, else the anonymous
system user — and the overridden `get` (the exclusive-lock external-id
match in `handle_incoming`) only ever matches sessions whose
`session_type` is `USSD`. -/
theorem queryset_create_get_invariants :
    (∀ (store : Store) (d : Defaults),
        (qs_create store d).sessionType = SessionType.USSD ∧
        (qs_create store d).createdBy = qs_create_user d.channel ∧
        (qs_create store d).modifiedBy = qs_create_user d.channel) ∧
    (∀ ch : Channel, qs_create_user (some ch) = ch.createdBy) ∧
    qs_create_user none = anonymous_user ∧
    (∀ (store : Store) (eid : String) (s : Session),
        s ∈ locked_get_matches store eid → s.sessionType = SessionType.USSD) := by
  refine ⟨fun store d => ⟨rfl, rfl, rfl⟩, fun ch => rfl, rfl, ?_⟩
  intro store eid s h
  have hp := (List.mem_filter.mp h).2
  simp only [Bool.and_eq_true, beq_iff_eq] at hp
  exact hp.2

/-- Concrete check of `queryset_create_get_invariants` on a store whose
single non-terminal session matches external id "abc". -/
theorem queryset_create_get_invariants_witness :
    sessInProgress.sessionType = SessionType.USSD :=
  queryset_create_get_invariants.2.2.2 [sessInProgress] "abc" sessInProgress (by decide)

/-! ### C8: the `ended_on`-iff-terminal invariant -/

/-- The store handed back by the dispatch tail is the one passed in. -/
lemma finish_dispatch_store (st : Store) (s : Session) (created : Bool)
    (trigger : Option Trigger) (e : Event) (async : Bool) :
    (finish_dispatch st s created trigger e async).store = st := by
  unfold finish_dispatch
  cases created <;> cases trigger <;> cases async <;> rfl

/-- The defaults dict built from a status hint keeps `ended_on` and the
terminality of `status` in step: it carries an `ended_on` value exactly
under the `INTERRUPTED` hint, whose status is terminal. -/
lemma build_defaults_coherent (e : Event) :
    ((build_defaults e).endedOn.isSome ↔ (build_defaults e).status ∈ DONE) := by
  unfold build_defaults
  cases hst : e.status with
  | none => simp [DONE]
  | some st => cases st <;> simp [DONE]

/-- Applying a coherent defaults dict to a session whose `ended_on` is
unset yields a session satisfying the invariant. -/
lemma inv_apply_defaults {d : Defaults} {s : Session} (hnone : s.endedOn = none)
    (hd : d.endedOn.isSome ↔ d.status ∈ DONE) :
    ended_on_iff_terminal (apply_defaults d s) := by
  unfold ended_on_iff_terminal apply_defaults
  cases hde : d.endedOn <;> simp_all

/-- A session created from a coherent defaults dict satisfies the
invariant. -/
lemma inv_qs_create {store : Store} {d : Defaults}
    (hd : d.endedOn.isSome ↔ d.status ∈ DONE) :
    ended_on_iff_terminal (qs_create store d) := by
  unfold ended_on_iff_terminal qs_create
  simpa using hd

/-- A session with a non-terminal status satisfying the invariant has no
`ended_on`. -/
lemma ended_on_none_of_nonterminal {s : Session} (hnd : s.status ∉ DONE)
    (hinv : ended_on_iff_terminal s) : s.endedOn = none := by
  cases he : s.endedOn with
  | none => rfl
  | some v => exact absurd (hinv.mp (by simp [he])) hnd

/-- A session with `ended_on` set whose status is `COMPLETED`: it
satisfies the invariant, the amended claims apply to it only through
`close`. -/
def sessCompletedEnded : Session :=
  { id := 7, externalId := some "q1", contact := 12, org := 1,
    status := Status.COMPLETED, endedOn := some 5,
    sessionType := SessionType.USSD, createdBy := 0, modifiedBy := 0 }

/-- C8 counterexample: `mark_ending` is listed without a non-terminal
guard, but applied to a terminal session it breaks the invariant — the
status becomes `ENDING` (non-terminal) while `ended_on` stays set. -/
theorem ended_on_invariant_broken_by_mark_ending :
    ended_on_iff_terminal sessCompletedEnded ∧
    ¬ ended_on_iff_terminal (mark_ending sessCompletedEnded).1 := by
  decide

/-- C8 amended: the invariant "`ended_on` is set iff the status is
terminal" is preserved by `mark_ending` applied to non-terminal sessions,
by `close` applied to non-terminal sessions, and by every create/resume
path of `handle_incoming` (including the `INTERRUPTED`-hint patch, which
sets `ended_on` and a terminal status together). -/
theorem ended_on_invariant_preserved :
    (∀ s : Session, s.status ∉ DONE → ended_on_iff_terminal s →
        ended_on_iff_terminal (mark_ending s).1) ∧
    (∀ (now : Nat) (s : Session), s.status ∉ DONE →
        ended_on_iff_terminal (close now s).1) ∧
    (∀ (env : Env) (store : Store) (e : Event) (async : Bool) (r : HIResult),
        (∀ s ∈ store, ended_on_iff_terminal s) →
        handle_incoming env store e async = some r →
        ∀ s ∈ r.store, ended_on_iff_terminal s) := by
  refine ⟨?_, ?_, ?_⟩
  · intro s hnd hinv
    have hnone := ended_on_none_of_nonterminal hnd hinv
    by_cases h : s.status = Status.ENDING
    · simpa [mark_ending, h] using hinv
    · simp [mark_ending, h, ended_on_iff_terminal, hnone, DONE]
  · intro now s hnd
    unfold ended_on_iff_terminal close
    by_cases h : s.status = Status.ENDING <;> simp [h, DONE]
  · intro env store e async r hall hr s hs
    simp only [handle_incoming] at hr
    split at hr
    · -- no-matching-trigger abort: store untouched
      obtain rfl := Option.some.inj hr
      exact hall s hs
    · split at hr
      · -- no initiated push session
        split at hr
        · -- exclusive-lock match: resume
          rename_i s0 heq
          obtain rfl := Option.some.inj hr
          rw [finish_dispatch_store] at hs
          rcases mem_store_save hs with rfl | hmem
          · have hmem0 : s0 ∈ locked_get_matches store e.external_id := by
              rw [heq]; exact List.mem_singleton.mpr rfl
            have hp := List.mem_filter.mp hmem0
            have hnd : s0.status ∉ DONE := by
              have := hp.2
              simp only [Bool.and_eq_true, Bool.not_eq_true',
                decide_eq_false_iff_not] at this
              exact this.1.1
            exact inv_apply_defaults
              (ended_on_none_of_nonterminal hnd (hall s0 hp.1))
              (build_defaults_coherent e)
          · exact hall s hmem
        · -- no match: abort or create
          split at hr
          · obtain rfl := Option.some.inj hr
            exact hall s hs
          · obtain rfl := Option.some.inj hr
            rw [finish_dispatch_store] at hs
            rcases List.mem_append.mp hs with hmem | hnew
            · exact hall s hmem
            · obtain rfl := List.mem_singleton.mp hnew
              exact inv_qs_create (by simpa using build_defaults_coherent e)
        · -- unreachable: the uncaught multiple-match case
          exact Option.noConfusion hr
      · -- initiated push session found: resume it
        rename_i s0 hfound
        obtain rfl := Option.some.inj hr
        rw [finish_dispatch_store] at hs
        rcases mem_store_save hs with rfl | hmem
        · have hp := List.find?_some hfound
          have hnd : s0.status ∉ DONE := by
            simp only [Bool.and_eq_true, beq_iff_eq] at hp
            rw [hp.1.2]
            decide
          have hmem0 := List.mem_of_find?_eq_some hfound
          exact inv_apply_defaults
            (ended_on_none_of_nonterminal hnd (hall s0 hmem0))
            (by simpa using build_defaults_coherent e)
        · exact hall s hmem

/-- Concrete check of `ended_on_invariant_preserved`: `mark_ending` and
`close` on an in-progress session, and an `INTERRUPTED`-hinted resume of
the session through `handle_incoming`. -/
theorem ended_on_invariant_preserved_witness :
    ended_on_iff_terminal (mark_ending sessInterruptTarget).1 ∧
    ended_on_iff_terminal (close 9 sessInterruptTarget).1 ∧
    (∀ r, handle_incoming envNoTrigger [sessInterruptTarget]
        { eventUnrelatedPull with
            external_id := "w1"
            contact := 11
            status := some Status.INTERRUPTED } true = some r →
      ∀ s ∈ r.store, ended_on_iff_terminal s) := by
  refine ⟨?_, ?_, ?_⟩
  · exact ended_on_invariant_preserved.1 sessInterruptTarget (by decide) (by decide)
  · exact ended_on_invariant_preserved.2.1 9 sessInterruptTarget (by decide)
  · intro r hr
    exact ended_on_invariant_preserved.2.2 envNoTrigger [sessInterruptTarget] _ true r
      (by decide) hr

end USSD
